import Mathlib

/-!
Verification of the TPAW client library (Toptranslation Python API Wrapper).

This file gives a shallow embedding of the request-dispatch pipeline of the
library — configuration resolution (`Config`), request construction
(`_prepare_request`), the rate-limited dispatcher (`DefaultHandler.rate_limit`),
the response decoder of `BaseTT._request`, and the resource-facade methods
(`list_orders`, `create_order`, `show_order`, `download_document`, ...) — and
proves or refutes the specified properties of each component.

Python values are modelled with an explicit `Json` type (the shapes produced by
`json.loads` and used for params/data dictionaries), Python dictionaries with
ordered association lists, raised exceptions with `Except PyExc`, and mutation
of shared state (`self.params`) with explicit state passing.
-/

/-- JSON-like values: the results of `json.loads` and the values stored in the
params/data dictionaries that the facade methods build (Python `None` is
`Json.null`). -/
inductive Json where
  | null
  | bool (b : Bool)
  | num (n : Int)
  | str (s : String)
  | arr (xs : List Json)
  | obj (kvs : List (String × Json))

/-- Python exceptions that the modelled code can raise. `clientException`
models `tpaw.errors.ClientException`, `httpException` models
`tpaw.errors.HTTPException` carrying the raw response's status code
(`error._raw.status_code`); `typeError`, `keyError` and `attributeError`
model the corresponding Python builtins. -/
inductive PyExc where
  | typeError (msg : String)
  | keyError (key : String)
  | attributeError (msg : String)
  | clientException (msg : String)
  | httpException (status : Nat)
  deriving DecidableEq, Repr

/-- Whether an exception is of class `ClientException` (or a subclass).
From `tpaw/errors.py`: `ClientException` extends `TPAWException`;
`HTTPException` also extends `TPAWException` but is NOT a subclass of
`ClientException`; `TypeError`/`KeyError`/`AttributeError` are Python builtins
outside the TPAW hierarchy. -/
def isClientExceptionClass : PyExc → Bool
  | .clientException _ => true
  | _ => false

/-! ### Python dictionaries as ordered association lists -/

/-- `d[k]` lookup returning `none` when the key is absent. -/
def alGet (d : List (String × Json)) (k : String) : Option Json :=
  (d.find? (fun kv => kv.1 = k)).map (·.2)

/-- `d[k] = v`: replace the value in place if `k` is present (Python dicts
keep the original insertion position), otherwise append the new pair. -/
def dictSet (d : List (String × Json)) (k : String) (v : Json) :
    List (String × Json) :=
  if d.any (fun kv => kv.1 = k) then
    d.map (fun kv => if kv.1 = k then (k, v) else kv)
  else
    d ++ [(k, v)]

/-- `d.update(upd)`: set every key of `upd` in `d`, in order. -/
def dictUpdate (d upd : List (String × Json)) : List (String × Json) :=
  upd.foldl (fun acc kv => dictSet acc kv.1 kv.2) d

/-- `d.setdefault(k, v)`: insert `(k, v)` only when `k` is absent. -/
def dictSetdefault (d : List (String × Json)) (k : String) (v : Json) :
    List (String × Json) :=
  if d.any (fun kv => kv.1 = k) then d else d ++ [(k, v)]

/-- String-valued dictionaries (HTTP headers). -/
def alGetS (d : List (String × String)) (k : String) : Option String :=
  (d.find? (fun kv => kv.1 = k)).map (·.2)

/-- `d.setdefault(k, v)` for header dictionaries. -/
def dictSetdefaultS (d : List (String × String)) (k v : String) :
    List (String × String) :=
  if d.any (fun kv => kv.1 = k) then d else d ++ [(k, v)]

/-! ### The response decoder of `BaseTT._request`

`_request` post-processes a successful response with
`re.sub('&([^;]+);', decode, response.text)` where
`decode(match) = html_entities.name2codepoint[match.group(1)]`. -/

/-- Model of the stdlib named-HTML-entity table
`six.moves.html_entities.name2codepoint` (a representative subset; the keys of
the real table are exactly the HTML 4 entity names, all purely alphabetic, so
numeric references such as `#65` are never keys). -/
def name2codepoint : String → Option Nat
  | "amp" => some 38
  | "lt" => some 60
  | "gt" => some 62
  | "quot" => some 34
  | "nbsp" => some 160
  | "Auml" => some 196
  | "auml" => some 228
  | "szlig" => some 223
  | _ => none

/-- Match the tail of the regex `&([^;]+);` right after a `&`: the group is
the (nonempty, greedy) run of non-`;` characters, which must be followed by a
literal `;`. Returns the group and the remaining characters. -/
def matchEntityAfterAmp (cs : List Char) : Option (String × List Char) :=
  let g := cs.takeWhile (fun c => c ≠ ';')
  match cs.dropWhile (fun c => c ≠ ';') with
  | ';' :: tl => if g.isEmpty then none else some (String.mk g, tl)
  | _ => none

/-- `re.sub('&([^;]+);', decode, text)` with
`decode(match) = name2codepoint[match.group(1)]`. The scan proceeds left to
right. On a match, `decode` first looks the group up in `name2codepoint`
(raising `KeyError` when absent, e.g. for numeric references) and then hands
the resulting *integer* back to `re.sub`, which requires the replacement to be
a string and raises `TypeError`. Text without any entity match is returned
unchanged. -/
def reSubDecode : List Char → Except PyExc (List Char)
  | [] => .ok []
  | c :: cs =>
    if c = '&' then
      match matchEntityAfterAmp cs with
      | some (g, _) =>
        match name2codepoint g with
        | none => .error (.keyError g)
        | some _ =>
            .error (.typeError "sequence item 0: expected str instance, int found")
      | none => (reSubDecode cs).map (fun tl => c :: tl)
    else
      (reSubDecode cs).map (fun tl => c :: tl)

/-- What the dispatched call (`self.handler.request(...)`) produced: either a
response with body text, or a raised `errors.HTTPException` carrying the
response's status code. -/
inductive DispatchOutcome where
  | success (text : String)
  | httpError (status : Nat)
  deriving DecidableEq, Repr

/-- `BaseTT.RETRY_CODES`. -/
def RETRY_CODES : List Nat := [502, 503, 504]

/-- The decode/error layer of `BaseTT._request`: on success, return
`re.sub('&([^;]+);', decode, response.text)`; on an `HTTPException`, re-raise
unless the carried status code is in `RETRY_CODES`, in which case the
exception is swallowed and the function returns `None` (modelled `none`). -/
def requestDecodeLayer : DispatchOutcome → Except PyExc (Option String)
  | .success t => (reSubDecode t.data).map (fun cs => some (String.mk cs))
  | .httpError s =>
    if s ∈ RETRY_CODES then .ok none else .error (.httpException s)

/-! ### Configuration resolution (`Config`) -/

/-- `Config.API_PATHS`: the table of logical endpoint names and their
relative path templates. -/
def API_PATHS : List (String × String) :=
  [("accept_quote",           "quotes/{identifier}/accept"),
   ("add_document",           "orders/{identifier}/documents"),
   ("create_cost_center",     "cost_centers"),
   ("create_order",           "orders"),
   ("document_url",           "documents/{identifier}/download"),
   ("download_document",      "documents/{identifier}/download"),
   ("get_locales",            "locales"),
   ("get_user",               "users/me"),
   ("invoice_url",            "invoices/{identifier}/download"),
   ("list_cost_centers",      "cost_centers"),
   ("list_documents",         "orders/{identifier}/documents"),
   ("list_invoices",          "orders/{identifier}/invoices"),
   ("list_orders",            "orders"),
   ("list_quotes",            "orders/{identifier}/quotes"),
   ("quote_url",              "quotes/{identifier}/download"),
   ("rate_order",             "orders/{identifier}/ratings"),
   ("reference_document_url", "reference_documents/{identifier}/download"),
   ("reject_quote",           "quotes/{identifier}/reject"),
   ("request_order",          "orders/{identifier}/request"),
   ("show_cost_center",       "cost_centers/{identifier}"),
   ("show_order",             "orders/{identifier}"),
   ("update_order",           "orders/{identifier}"),
   ("upload_document",        "documents"),
   ("upload_token",           "upload_tokens")]

/-- Lookup in `API_PATHS` (`self.API_PATHS[key]`, `none` = `KeyError`). -/
def apiPathLookup (key : String) : Option String :=
  (API_PATHS.find? (fun kv => kv.1 = key)).map (·.2)

/-- The settings a `Config` is built from (`CONFIG.items(site_name)` merged
with constructor overrides). -/
structure ConfigSettings where
  api_domain : String
  api_version : String
  document_domain : String
  api_request_delay : ℚ
  timeout : ℚ
  log_requests : Int
  access_token : Option String
  deriving DecidableEq, Repr

/-- The computed fields of `Config.__init__`:
`api_url = 'https://' + api_domain`, `api_version = 'v' + api_version`,
`document_url = 'https://' + document_domain`. -/
structure Config where
  api_url : String
  api_version : String
  document_url : String
  api_request_delay : ℚ
  timeout : ℚ
  log_requests : Int
  access_token : Option String
  deriving DecidableEq, Repr

/-- `Config.__init__` on the merged settings. -/
def Config.ofSettings (s : ConfigSettings) : Config :=
  { api_url := "https://" ++ s.api_domain
    api_version := "v" ++ s.api_version
    document_url := "https://" ++ s.document_domain
    api_request_delay := s.api_request_delay
    timeout := s.timeout
    log_requests := s.log_requests
    access_token := s.access_token }

/-- Split a character list at the first occurrence of the scheme separator
`://`, returning the part before it and the part after it. -/
def splitSchemeSep : List Char → Option (List Char × List Char)
  | [] => none
  | c :: rest =>
    if c = ':' ∧ rest.take 2 = ['/', '/'] then some ([], rest.drop 2)
    else (splitSchemeSep rest).map (fun p => (c :: p.1, p.2))

/-- Keep a path up to and including its last `/` (RFC 3986 merge of a
relative reference with a base path). -/
def dropLastSegment (p : List Char) : List Char :=
  (p.reverse.dropWhile (fun c => c ≠ '/')).reverse

/-- Model of `requests.compat.urljoin` (i.e. `urllib`'s `urljoin`) for the
shapes this client produces: the base is an absolute URL
(`scheme://netloc[/path]`) and the second argument is either itself absolute,
or a reference without scheme, query or fragment. A reference with a scheme
replaces the base; a reference starting with `/` replaces the base's path; any
other reference is merged onto the base's path, which for a path-less base
(`https://host`) yields `base ++ "/" ++ rel`. -/
def urljoin (base rel : String) : String :=
  match splitSchemeSep rel.data with
  | some _ => rel
  | none =>
    match splitSchemeSep base.data with
    | none => rel
    | some (scheme, hostPath) =>
      let netloc := hostPath.takeWhile (fun c => c ≠ '/')
      let basePath := hostPath.dropWhile (fun c => c ≠ '/')
      let root := scheme ++ (':' :: '/' :: '/' :: netloc)
      if rel.data.head? = some '/' then String.mk (root ++ rel.data)
      else
        let dir := if basePath.isEmpty then ['/'] else dropLastSegment basePath
        String.mk (root ++ dir ++ rel.data)

/-- `Config.__getitem__`: `urljoin(self.api_url, self.api_version + '/' +
self.API_PATHS[key])`; an unknown key raises `KeyError`. -/
def Config.getItem (c : Config) (key : String) : Except PyExc String :=
  match apiPathLookup key with
  | none => .error (.keyError key)
  | some p => .ok (urljoin c.api_url (c.api_version ++ "/" ++ p))

/-- `Config.document_store_url`: `urljoin(self.document_url,
self.API_PATHS[key])` (no version segment). -/
def Config.document_store_url (c : Config) (key : String) :
    Except PyExc String :=
  match apiPathLookup key with
  | none => .error (.keyError key)
  | some p => .ok (urljoin c.document_url p)

/-! ### Client construction checks (`BaseTT.__init__`) -/

/-- The `user_agent` argument of `BaseTT.__init__`: a Python string or a value
of some other type (with its truthiness). -/
inductive UserAgent where
  | str (s : String)
  | otherType (truthy : Bool)
  deriving DecidableEq, Repr

/-- The check at the top of `BaseTT.__init__`:
`if not user_agent or not isinstance(user_agent, six.string_types): raise
TypeError('user agent must be a non-empty string')`. -/
def checkUserAgent : UserAgent → Except PyExc Unit
  | .str s =>
    if s.isEmpty then .error (.typeError "user agent must be a non-empty string")
    else .ok ()
  | .otherType _ => .error (.typeError "user agent must be a non-empty string")

/-- `BaseTT.__init__._req_error`, installed as `self.http.request`: any direct
invocation of the transport session's request method raises a
`ClientException`. -/
def _req_error : Except PyExc Json :=
  .error (.clientException "Do not make direct requests.")

/-! ### Request construction (`tpaw/internal.py`, `_prepare_request`) -/

/-- HTTP methods. In this program the `method` argument of
`_prepare_request` is either `None` (modelled `Option.none`) or one of the
literal strings `'GET'`, `'POST'`, `'PATCH'` (all nonempty, hence truthy). -/
inductive HttpMethod where
  | GET
  | POST
  | PATCH
  | PUT
  | DELETE
  deriving DecidableEq, Repr

/-- The `data` argument of `_prepare_request`: Python `None`, the literal
sentinel `True` (spec: "empty"), a dictionary, or a non-dict raw value
(e.g. a string). -/
inductive BodyData where
  | none
  | empty
  | dict (d : List (String × Json))
  | raw (s : String)

/-- Python truthiness of the `data` argument (`elif data or files:`):
`None` is falsy, `True` is truthy, a dict is truthy iff nonempty, a string is
truthy iff nonempty. -/
def BodyData.truthy : BodyData → Bool
  | .none => false
  | .empty => true
  | .dict d => !d.isEmpty
  | .raw s => !s.isEmpty

/-- Truthiness of the `files` argument (`None` or a dict of attachments). -/
def filesTruthy : Option (List (String × String)) → Bool
  | Option.none => false
  | Option.some fs => !fs.isEmpty

/-- The method-inference step of `_prepare_request`:
`if method: pass; elif data or files: method = 'POST'; else: method = 'GET'`
(an explicitly given method is one of the nonempty, hence truthy, strings
`'GET'`/`'POST'`/`'PATCH'`). -/
def inferMethod (method : Option HttpMethod) (data : BodyData)
    (files : Option (List (String × String))) : HttpMethod :=
  match method with
  | Option.some m => m
  | Option.none => if data.truthy || filesTruthy files then .POST else .GET

/-- The `requests.Request` descriptor built by `_prepare_request`.
`data`/`files` are `none` while still holding the library defaults
(the constructor is called without them) and `some _` once
`_prepare_request` assigned them. -/
structure Request where
  method : HttpMethod
  url : String
  headers : List (String × String)
  params : List (String × Json)
  auth : Option String
  cookies : List (String × String)
  data : Option BodyData
  files : Option (Option (List (String × String)))

/-- `tpaw.internal._prepare_request`. `BaseTT` never sets `_use_oauth`, so
`getattr(session, '_use_oauth', False)` is always `False` and the OAuth
rewrite branch is dead: `headers = {}` then `headers.update(session.http.headers)`.
Method inference: an explicitly given (truthy) method is kept; otherwise
`POST` when `data or files` is truthy, else `GET`. For `GET` the descriptor
is returned immediately; for other methods the body is processed: the `True`
sentinel becomes `{}`, a dict gets `api_type=json` set-defaulted when no auth
is supplied, a non-dict body instead set-defaults a
`Content-Type: application/json` header; then `request.data = data;
request.files = files`. -/
def _prepare_request (sessionHeaders : List (String × String))
    (sessionCookies : List (String × String)) (url : String)
    (params : List (String × Json)) (data : BodyData) (auth : Option String)
    (files : Option (List (String × String))) (method : Option HttpMethod) :
    Request :=
  let headers := sessionHeaders
  let method := inferMethod method data files
  let request : Request :=
    { method := method, url := url, headers := headers, params := params
      auth := auth, cookies := sessionCookies
      data := Option.none, files := Option.none }
  if method = .GET then request
  else
    let data := if data matches .empty then .dict [] else data
    match data with
    | .dict d =>
      let d := if auth.isNone then dictSetdefault d "api_type" (Json.str "json")
               else d
      { request with data := Option.some (.dict d), files := Option.some files }
    | other =>
      { request with
          headers := dictSetdefaultS request.headers "Content-Type"
                       "application/json"
          data := Option.some other, files := Option.some files }

/-! ### The rate-limited dispatcher (`DefaultHandler.rate_limit`) -/

/-- One admission through `DefaultHandler.rate_limit`'s per-domain critical
section, for interval `d`, previous-call timestamp `last` (`lock_last[1]`) and
current clock reading `now` (`timer()`):
`delay = lock_last[1] + _rate_delay - now; if delay > 0: now += delay;
time.sleep(delay); lock_last[1] = now`. Returns the time at which the wrapped
call starts executing, which is also the new stored timestamp. -/
def rateLimitAdmit (d last now : ℚ) : ℚ :=
  let delay := last + d - now
  if 0 < delay then now + delay else now

/-- The sequence of admitted start times for a sequence of clock readings
`nows` (one per call, read when the call enters the critical section),
threading the stored `lock_last[1]` timestamp through. -/
def rateLimitStarts (d : ℚ) : ℚ → List ℚ → List ℚ
  | _, [] => []
  | last, now :: rest =>
    let s := rateLimitAdmit d last now
    s :: rateLimitStarts d s rest

/-! ### JSON content extraction (`BaseTT.get_content`) -/

/-- Python iteration over a value (`for thing in root`): a list yields its
elements, a dict yields its keys, a string yields its characters, anything
else raises `TypeError`. -/
def pyIterate : Json → Except PyExc (List Json)
  | .arr xs => .ok xs
  | .obj kvs => .ok (kvs.map (fun kv => Json.str kv.1))
  | .str s => .ok (s.data.map (fun c => Json.str (String.mk [c])))
  | _ => .error (.typeError "object is not iterable")

/-- `data.get(root_field, data)`: dictionary lookup with a default; a
non-dict value has no `get` attribute. -/
def jsonDictGet (v : Json) (k : String) (dflt : Json) : Except PyExc Json :=
  match v with
  | .obj kvs => .ok ((alGet kvs k).getD dflt)
  | _ => .error (.attributeError "object has no attribute get")

/-- `BaseTT.get_content` applied to the decoded JSON payload of the response:
`root = data.get(root_field, data); for thing in root: yield thing`. Returns
the sequence of yielded items. -/
def get_content (payload : Json) (root_field : String := "data") :
    Except PyExc (List Json) := do
  let root ← jsonDictGet payload root_field payload
  pyIterate root

/-! ### The resource facade

The facade methods live on a client whose mutable attribute `self.params`
(set by `AuthenticatedTT.__init__`) is modelled by explicit state passing.
Each method returns the new client state, the request it hands to
`request_json` (method, formatted URL, `params` and `data` arguments), and
its return value; `request_json`'s network side is modelled by supplying the
decoded JSON payload of the response as the `response` argument. -/

/-- The arguments a facade method passes to `BaseTT.request_json`. -/
structure SentRequest where
  method : HttpMethod
  url : String
  params : List (String × Json)
  data : BodyData

/-- The client state the facade methods read and mutate. -/
structure ClientState where
  config : Config
  params : List (String × Json)

/-- `AuthenticatedTT.__init__`:
`self.params = {"access_token": self.config.access_token}`. -/
def authInitParams (c : Config) : List (String × Json) :=
  [("access_token", match c.access_token with
                    | Option.some t => Json.str t
                    | Option.none => Json.null)]

/-- `OrderMixin.list_orders`: `params = self.params` aliases the client's
dictionary, so `params.update({...})` mutates `self.params` in place; the
updated dictionary is both stored back in the state and sent with the GET
request, and the parsed response payload is returned whole. -/
def list_orders (st : ClientState) (response : Json)
    (page : Json := .num 1) (per_page : Json := .num 20)
    (state : Json := .null) (team_identifier : Json := .null) :
    Except PyExc (ClientState × SentRequest × Json) := do
  let url ← st.config.getItem "list_orders"
  let params := dictUpdate st.params
    [("page", page), ("per_page", per_page), ("state", state),
     ("team_identifier", team_identifier)]
  .ok ({ st with params := params },
       { method := .GET, url := url, params := params, data := .none },
       response)

/-- `OrderMixin.create_order`: `data = self.params` aliases the client's
dictionary, so `data.update({...})` (note the misspelled `commment` key from
the source) mutates `self.params` in place; the updated dictionary is sent as
the POST body. -/
def create_order (st : ClientState) (response : Json)
    (name : Json := .null) (reference : Json := .null)
    (comment : Json := .null) (coupon_code : Json := .null)
    (desired_delivery_date : Json := .null) (service_level : Json := .null)
    (cost_center_identifier : Json := .null) :
    Except PyExc (ClientState × SentRequest × Json) := do
  let url ← st.config.getItem "create_order"
  let data := dictUpdate st.params
    [("name", name), ("reference", reference), ("commment", comment),
     ("coupon_code", coupon_code),
     ("desired_delivery_date", desired_delivery_date),
     ("service_level", service_level),
     ("cost_center_identifier", cost_center_identifier)]
  .ok ({ st with params := data },
       { method := .POST, url := url, params := [], data := .dict data },
       response)

/-- `OrderMixin.show_order`: the URL template is formatted with the
identifier, `params = self.params` is aliased and updated in place, and the
GET request is sent with the updated dictionary. -/
def show_order (st : ClientState) (response : Json) (identifier : String) :
    Except PyExc (ClientState × SentRequest × Json) := do
  let url ← st.config.getItem "show_order"
  let url := url.replace "{identifier}" identifier
  let params := dictUpdate st.params [("identifier", Json.str identifier)]
  .ok ({ st with params := params },
       { method := .GET, url := url, params := params, data := .none },
       response)

/-- `DocumentMixin.download_document`: every statement of the body after the
docstring is commented out in the source, so the method performs no endpoint
lookup and no request (the empty list records the requests it makes), raises
nothing, and falls off the end returning Python `None`. -/
def download_document (st : ClientState) (token : Json) (identifier : Json) :
    Except PyExc (ClientState × List SentRequest × Json) :=
  .ok (st, [], Json.null)

/-! ### Concrete fixtures for witnesses and counterexamples -/

/-- A concrete configuration (the default `toptranslation` site profile
shape). -/
def tpConfig : Config :=
  Config.ofSettings
    { api_domain := "api.toptranslation.com"
      api_version := "1"
      document_domain := "document.toptranslation.com"
      api_request_delay := 1
      timeout := 30
      log_requests := 0
      access_token := Option.some "tok" }

/-- A concrete authenticated client state right after
`AuthenticatedTT.__init__`. -/
def tpState : ClientState :=
  { config := tpConfig, params := authInitParams tpConfig }

/-- The response payload of the `list_orders` scenario:
`{"data": [{"id":1},{"id":2}]}`. -/
def c2payload : Json :=
  Json.obj [("data", Json.arr [Json.obj [("id", Json.num 1)],
                               Json.obj [("id", Json.num 2)]])]

/-! ## Helper lemmas -/

theorem alGet_cons (hd : String × Json) (tl : List (String × Json))
    (k : String) :
    alGet (hd :: tl) k = if hd.1 = k then some hd.2 else alGet tl k := by
  unfold alGet
  by_cases h : hd.1 = k <;> simp [List.find?, h]

theorem dictSet_cons_ne (hd : String × Json) (tl : List (String × Json))
    (k : String) (v : Json) (hh : ¬ hd.1 = k) :
    dictSet (hd :: tl) k v = hd :: dictSet tl k v := by
  unfold dictSet
  have hany : (hd :: tl).any (fun kv => kv.1 = k) =
      tl.any (fun kv => kv.1 = k) := by
    simp [List.any_cons, hh]
  rw [hany]
  by_cases ht : tl.any (fun kv => kv.1 = k)
  · rw [if_pos ht, if_pos ht, List.map_cons, if_neg hh]
  · rw [if_neg ht, if_neg ht, List.cons_append]

theorem alGet_map_rekey (tl : List (String × Json)) (k k' : String) (v : Json)
    (h : k' ≠ k) :
    alGet (tl.map (fun kv => if kv.1 = k then (k, v) else kv)) k' =
      alGet tl k' := by
  induction tl with
  | nil => rfl
  | cons hd tl ih =>
    rw [List.map_cons, alGet_cons, alGet_cons]
    by_cases hh : hd.1 = k
    · rw [if_pos hh]
      have h1 : ¬ ((k, v).1 = k') := fun hk => h hk.symm
      have h2 : ¬ (hd.1 = k') := fun hk => h ((hk ▸ hh : k' = k))
      rw [if_neg h1, if_neg h2]
      exact ih
    · rw [if_neg hh]
      by_cases hk' : hd.1 = k'
      · rw [if_pos hk', if_pos hk']
      · rw [if_neg hk', if_neg hk']
        exact ih

theorem alGet_dictSet_same (d : List (String × Json)) (k : String) (v : Json) :
    alGet (dictSet d k v) k = some v := by
  induction d with
  | nil =>
    unfold dictSet
    rw [if_neg (by simp), List.nil_append, alGet_cons, if_pos rfl]
  | cons hd tl ih =>
    by_cases hh : hd.1 = k
    · unfold dictSet
      have hany : (hd :: tl).any (fun kv => kv.1 = k) = true := by
        simp [List.any_cons, hh]
      rw [if_pos hany, List.map_cons, if_pos hh, alGet_cons]
      simp
    · rw [dictSet_cons_ne hd tl k v hh, alGet_cons, if_neg hh]
      exact ih

theorem alGet_dictSet_ne (d : List (String × Json)) (k k' : String) (v : Json)
    (h : k' ≠ k) : alGet (dictSet d k v) k' = alGet d k' := by
  induction d with
  | nil =>
    unfold dictSet
    rw [if_neg (by simp)]
    rw [List.nil_append, alGet_cons]
    exact if_neg (fun hk => h hk.symm)
  | cons hd tl ih =>
    by_cases hh : hd.1 = k
    · unfold dictSet
      have hany : (hd :: tl).any (fun kv => kv.1 = k) = true := by
        simp [List.any_cons, hh]
      rw [if_pos hany, List.map_cons, if_pos hh, alGet_cons, alGet_cons]
      have h1 : ¬ ((k, v).1 = k') := fun hk => h hk.symm
      have h2 : ¬ (hd.1 = k') := fun hk => h ((hk ▸ hh : k' = k))
      rw [if_neg h1, if_neg h2]
      exact alGet_map_rekey tl k k' v h
    · rw [dictSet_cons_ne hd tl k v hh, alGet_cons, alGet_cons]
      by_cases hk' : hd.1 = k'
      · rw [if_pos hk', if_pos hk']
      · rw [if_neg hk', if_neg hk']
        exact ih

theorem alGetS_cons (hd : String × String) (tl : List (String × String))
    (k : String) :
    alGetS (hd :: tl) k = if hd.1 = k then some hd.2 else alGetS tl k := by
  unfold alGetS
  by_cases h : hd.1 = k <;> simp [List.find?, h]

theorem dictSetdefaultS_cons_ne (hd : String × String)
    (tl : List (String × String)) (k v : String) (hh : ¬ hd.1 = k) :
    dictSetdefaultS (hd :: tl) k v = hd :: dictSetdefaultS tl k v := by
  unfold dictSetdefaultS
  have hany : (hd :: tl).any (fun kv => kv.1 = k) =
      tl.any (fun kv => kv.1 = k) := by
    simp [List.any_cons, hh]
  rw [hany]
  by_cases ht : tl.any (fun kv => kv.1 = k)
  · rw [if_pos ht, if_pos ht]
  · rw [if_neg ht, if_neg ht, List.cons_append]

theorem alGetS_dictSetdefaultS (hs : List (String × String)) (k v : String) :
    alGetS (dictSetdefaultS hs k v) k = some ((alGetS hs k).getD v) := by
  induction hs with
  | nil =>
    unfold dictSetdefaultS
    rw [if_neg (by simp), List.nil_append, alGetS_cons, if_pos rfl]
    rfl
  | cons hd tl ih =>
    by_cases hh : hd.1 = k
    · unfold dictSetdefaultS
      have hany : (hd :: tl).any (fun kv => kv.1 = k) = true := by
        simp [List.any_cons, hh]
      rw [if_pos hany, alGetS_cons, if_pos hh]
      rfl
    · rw [dictSetdefaultS_cons_ne hd tl k v hh, alGetS_cons, if_neg hh,
          alGetS_cons, if_neg hh]
      exact ih

theorem dictSetdefault_cons_ne (hd : String × Json)
    (tl : List (String × Json)) (k : String) (v : Json) (hh : ¬ hd.1 = k) :
    dictSetdefault (hd :: tl) k v = hd :: dictSetdefault tl k v := by
  unfold dictSetdefault
  have hany : (hd :: tl).any (fun kv => kv.1 = k) =
      tl.any (fun kv => kv.1 = k) := by
    simp [List.any_cons, hh]
  rw [hany]
  by_cases ht : tl.any (fun kv => kv.1 = k)
  · rw [if_pos ht, if_pos ht]
  · rw [if_neg ht, if_neg ht, List.cons_append]

theorem alGet_dictSetdefault (d : List (String × Json)) (k : String)
    (v : Json) :
    alGet (dictSetdefault d k v) k = some ((alGet d k).getD v) := by
  induction d with
  | nil =>
    unfold dictSetdefault
    rw [if_neg (by simp), List.nil_append, alGet_cons, if_pos rfl]
    rfl
  | cons hd tl ih =>
    by_cases hh : hd.1 = k
    · unfold dictSetdefault
      have hany : (hd :: tl).any (fun kv => kv.1 = k) = true := by
        simp [List.any_cons, hh]
      rw [if_pos hany, alGet_cons, if_pos hh]
      rfl
    · rw [dictSetdefault_cons_ne hd tl k v hh, alGet_cons, if_neg hh,
          alGet_cons, if_neg hh]
      exact ih

theorem rateLimitAdmit_ge (d last now : ℚ) :
    last + d ≤ rateLimitAdmit d last now := by
  unfold rateLimitAdmit
  by_cases h : 0 < last + d - now
  · rw [if_pos h]
    linarith
  · rw [if_neg h]
    linarith

theorem prepare_request_fields (sh ck : List (String × String)) (url : String)
    (params : List (String × Json)) (data : BodyData) (auth : Option String)
    (files : Option (List (String × String))) (method : Option HttpMethod) :
    (_prepare_request sh ck url params data auth files method).method =
        inferMethod method data files ∧
    (_prepare_request sh ck url params data auth files method).url = url ∧
    (_prepare_request sh ck url params data auth files method).params =
        params := by
  unfold _prepare_request
  dsimp only
  split
  · exact ⟨rfl, rfl, rfl⟩
  · split <;> exact ⟨rfl, rfl, rfl⟩

/-! ## The claims -/

/-- **C1** (the code contradicts the round-trip property): the decode step of
`BaseTT._request` cannot unescape any HTML entity. On the named entity
`&amp;` the replacement function returns the *integer* codepoint 38 (the
`chr` conversion is missing), so `re.sub` raises a `TypeError`; on the
numeric entity `&#65;` the group `#65` is not a key of the named-entity
table, so the replacement function raises a `KeyError`. In neither case does
decoding yield the original characters `&` or `A`. -/
theorem c1_entity_decode_raises_instead_of_roundtrip :
    requestDecodeLayer (.success "&amp;") =
      .error (.typeError "sequence item 0: expected str instance, int found") ∧
    requestDecodeLayer (.success "&#65;") = .error (.keyError "#65") ∧
    requestDecodeLayer (.success "&amp;") ≠ .ok (some "&") ∧
    requestDecodeLayer (.success "&#65;") ≠ .ok (some "A") := by
  refine ⟨rfl, rfl, ?_, ?_⟩
  · intro h
    rw [show requestDecodeLayer (.success "&amp;") =
          .error (.typeError "sequence item 0: expected str instance, int found")
        from rfl] at h
    exact Except.noConfusion h
  · intro h
    rw [show requestDecodeLayer (.success "&#65;") =
          .error (.keyError "#65") from rfl] at h
    exact Except.noConfusion h

/-- **C3**: the decode layer of `BaseTT._request` swallows an
`HTTPException` (returning no result) precisely when the carried status code
is one of 502, 503, 504, and re-raises the exception unchanged for every
other status code. -/
theorem c3_swallow_iff_retry_code (s : Nat) :
    (requestDecodeLayer (.httpError s) = .ok none ↔
        s = 502 ∨ s = 503 ∨ s = 504) ∧
    (s ∉ RETRY_CODES →
        requestDecodeLayer (.httpError s) = .error (.httpException s)) := by
  have hmem : s ∈ RETRY_CODES ↔ s = 502 ∨ s = 503 ∨ s = 504 := by
    simp [RETRY_CODES]
  constructor
  · constructor
    · intro h
      by_cases hs : s ∈ RETRY_CODES
      · exact hmem.mp hs
      · rw [show requestDecodeLayer (.httpError s) =
              if s ∈ RETRY_CODES then .ok none
              else .error (.httpException s) from rfl, if_neg hs] at h
        exact absurd h (by simp)
    · intro h
      rw [show requestDecodeLayer (.httpError s) =
            if s ∈ RETRY_CODES then .ok none
            else .error (.httpException s) from rfl, if_pos (hmem.mpr h)]
  · intro h
    rw [show requestDecodeLayer (.httpError s) =
          if s ∈ RETRY_CODES then .ok none
          else .error (.httpException s) from rfl, if_neg h]

/-- Witness for C3 at the concrete status codes 503 (swallowed) and
500 (re-raised). -/
theorem c3_swallow_iff_retry_code_witness :
    requestDecodeLayer (.httpError 503) = .ok none ∧
    (500 : Nat) ∉ RETRY_CODES ∧
    requestDecodeLayer (.httpError 500) = .error (.httpException 500) :=
  ⟨(c3_swallow_iff_retry_code 503).1.mpr (Or.inr (Or.inl rfl)),
   by decide,
   (c3_swallow_iff_retry_code 500).2 (by decide)⟩

/-- **C5**: `_prepare_request` infers `POST` exactly when the body data or
the files argument is present (truthy) and no explicit method is given,
`GET` otherwise; an explicitly given method is kept unchanged. -/
theorem c5_method_inference (sh ck : List (String × String)) (url : String)
    (params : List (String × Json)) (data : BodyData) (auth : Option String)
    (files : Option (List (String × String))) :
    ((_prepare_request sh ck url params data auth files Option.none).method =
        if data.truthy || filesTruthy files then HttpMethod.POST
        else HttpMethod.GET) ∧
    (∀ m : HttpMethod,
      (_prepare_request sh ck url params data auth files
          (Option.some m)).method = m) := by
  refine ⟨?_, fun m => ?_⟩ <;>
    rw [(prepare_request_fields sh ck url params data auth files _).1] <;> rfl

/-- **C10**: `DocumentMixin.download_document` is a silent no-op: for every
client state and arguments it performs no request, raises no exception, and
returns Python `None`. -/
theorem c10_download_document_noop (st : ClientState)
    (token identifier : Json) :
    download_document st token identifier = .ok (st, [], Json.null) ∧
    ∀ e : PyExc, download_document st token identifier ≠ .error e :=
  ⟨rfl, fun _ h => Except.noConfusion h⟩

/-- **C4**: for every sequence of calls admitted through one rate-limit
domain with interval `d`, threading the stored last-call timestamp through
`rateLimitAdmit` (delay = last + d − now, sleep when positive, store the
advanced time), the admitted start times of any two consecutive calls are at
least `d` apart. -/
theorem c4_rate_limit_gap (d last : ℚ) (nows : List ℚ) (i : ℕ) (s₁ s₂ : ℚ)
    (h₁ : (rateLimitStarts d last nows)[i]? = some s₁)
    (h₂ : (rateLimitStarts d last nows)[i + 1]? = some s₂) :
    s₁ + d ≤ s₂ := by
  induction nows generalizing last i with
  | nil =>
    rw [show rateLimitStarts d last [] = [] from rfl] at h₁
    exact absurd h₁ (by simp)
  | cons now rest ih =>
    rw [show rateLimitStarts d last (now :: rest) =
          rateLimitAdmit d last now ::
            rateLimitStarts d (rateLimitAdmit d last now) rest from rfl]
      at h₁ h₂
    cases i with
    | zero =>
      rw [List.getElem?_cons_zero] at h₁
      rw [List.getElem?_cons_succ] at h₂
      cases rest with
      | nil =>
        rw [show rateLimitStarts d (rateLimitAdmit d last now) [] = []
            from rfl] at h₂
        exact absurd h₂ (by simp)
      | cons now₂ rest₂ =>
        rw [show rateLimitStarts d (rateLimitAdmit d last now)
              (now₂ :: rest₂) =
              rateLimitAdmit d (rateLimitAdmit d last now) now₂ ::
                rateLimitStarts d
                  (rateLimitAdmit d (rateLimitAdmit d last now) now₂) rest₂
            from rfl, List.getElem?_cons_zero] at h₂
        have e₁ : rateLimitAdmit d last now = s₁ := Option.some.inj h₁
        have e₂ : rateLimitAdmit d (rateLimitAdmit d last now) now₂ = s₂ :=
          Option.some.inj h₂
        rw [← e₁, ← e₂]
        exact rateLimitAdmit_ge d _ now₂
    | succ j =>
      rw [List.getElem?_cons_succ] at h₁ h₂
      exact ih _ _ h₁ h₂

/-- Witness for C4: interval 1, two calls with clock readings 0 and 0;
the admitted start times are 1 and 2, and their gap is ≥ 1. -/
theorem c4_rate_limit_gap_witness :
    (rateLimitStarts 1 0 [0, 0])[0]? = some 1 ∧
    (rateLimitStarts 1 0 [0, 0])[1]? = some 2 ∧ (1 : ℚ) + 1 ≤ 2 := by
  have h1 : (rateLimitStarts 1 0 [0, 0])[0]? = some 1 := by
    norm_num [rateLimitStarts, rateLimitAdmit]
  have h2 : (rateLimitStarts 1 0 [0, 0])[1]? = some 2 := by
    norm_num [rateLimitStarts, rateLimitAdmit]
  exact ⟨h1, h2, c4_rate_limit_gap 1 0 [0, 0] 0 1 2 h1 h2⟩

/-- **C7**: the body processing of `_prepare_request`. For an explicitly
given method `m`: the literal sentinel body (`data is True`) is processed
exactly like an empty mapping; for non-GET, a mapping body with no auth gets
`api_type=json` set-defaulted, a mapping body with auth is kept as is, a
non-mapping body (raw string or `None`) instead set-defaults a
`Content-Type: application/json` header while a mapping body leaves the
headers alone, and the file attachments are attached verbatim; for GET the
descriptor is returned immediately with untouched headers and without body or
files ever being assigned. The final two conjuncts state the `setdefault`
semantics: the set-defaulted key reads as its existing value when present and
as the injected default when absent. -/
theorem c7_body_processing (sh ck : List (String × String)) (url : String)
    (params : List (String × Json)) (dd : List (String × Json)) (s : String)
    (auth : Option String) (files : Option (List (String × String)))
    (m : HttpMethod) :
    (_prepare_request sh ck url params .empty auth files (Option.some m) =
      _prepare_request sh ck url params (.dict []) auth files
        (Option.some m)) ∧
    ((_prepare_request sh ck url params (.dict dd) Option.none files
        (Option.some m)).data =
      if m = .GET then Option.none
      else Option.some (.dict (dictSetdefault dd "api_type"
        (Json.str "json")))) ∧
    (∀ a : String,
      (_prepare_request sh ck url params (.dict dd) (Option.some a) files
          (Option.some m)).data =
        if m = .GET then Option.none else Option.some (.dict dd)) ∧
    ((_prepare_request sh ck url params (.raw s) auth files
        (Option.some m)).data =
      if m = .GET then Option.none else Option.some (.raw s)) ∧
    ((_prepare_request sh ck url params (.raw s) auth files
        (Option.some m)).headers =
      if m = .GET then sh
      else dictSetdefaultS sh "Content-Type" "application/json") ∧
    ((_prepare_request sh ck url params .none auth files
        (Option.some m)).headers =
      if m = .GET then sh
      else dictSetdefaultS sh "Content-Type" "application/json") ∧
    ((_prepare_request sh ck url params (.dict dd) auth files
        (Option.some m)).headers = sh) ∧
    ((_prepare_request sh ck url params (.dict dd) auth files
        (Option.some m)).files =
      if m = .GET then Option.none else Option.some files) ∧
    ((_prepare_request sh ck url params (.raw s) auth files
        (Option.some m)).files =
      if m = .GET then Option.none else Option.some files) ∧
    ((_prepare_request sh ck url params (.raw s) auth files
        (Option.some m)).data =
      if m = .GET then Option.none else Option.some (.raw s)) ∧
    (∀ (hs : List (String × String)) (k v : String),
      alGetS (dictSetdefaultS hs k v) k = some ((alGetS hs k).getD v)) ∧
    (∀ (d' : List (String × Json)) (k : String) (v : Json),
      alGet (dictSetdefault d' k v) k = some ((alGet d' k).getD v)) := by
  cases m <;> cases auth <;>
    exact ⟨rfl, rfl, fun a => rfl, rfl, rfl, rfl, rfl, rfl, rfl, rfl,
           fun hs k v => alGetS_dictSetdefaultS hs k v,
           fun d' k v => alGet_dictSetdefault d' k v⟩

/-- **C2** (counterexample): against the response payload
`{"data": [{"id":1},{"id":2}]}`, `list_orders()` does not produce the
sequence `[{"id":1}, {"id":2}]`: it returns the whole payload object
unchanged (it delegates to `request_json`, not to `get_content`). -/
theorem c2_counterexample_list_orders_returns_payload :
    (list_orders tpState c2payload).map (fun r => r.2.2) = .ok c2payload ∧
    c2payload ≠ Json.arr [Json.obj [("id", Json.num 1)],
                          Json.obj [("id", Json.num 2)]] := by
  constructor
  · rfl
  · intro h
    exact Json.noConfusion h

/-- **C2** (amended): it is `BaseTT.get_content` (used by list operations
such as `get_locales`) that unwraps the root field (default `data`) from the
response payload and falls back to the whole payload when that field is
absent, yielding the items in order; `list_orders()` itself returns the whole
decoded payload `{"data": [...]}` rather than the unwrapped sequence. -/
theorem c2_get_content_unwraps_root (kvs : List (String × Json))
    (xs : List Json) (root_field : String) :
    (alGet kvs root_field = some (Json.arr xs) →
      get_content (Json.obj kvs) root_field = .ok xs) ∧
    (alGet kvs root_field = none →
      get_content (Json.obj kvs) root_field =
        .ok (kvs.map (fun kv => Json.str kv.1))) ∧
    get_content c2payload "data" =
      .ok [Json.obj [("id", Json.num 1)], Json.obj [("id", Json.num 2)]] ∧
    (list_orders tpState c2payload).map (fun r => r.2.2) = .ok c2payload := by
  refine ⟨?_, ?_, rfl, rfl⟩
  · intro h
    have hroot : jsonDictGet (Json.obj kvs) root_field (Json.obj kvs) =
        .ok (Json.arr xs) := by
      show Except.ok ((alGet kvs root_field).getD (Json.obj kvs)) =
        .ok (Json.arr xs)
      rw [h]
      rfl
    unfold get_content
    rw [hroot]
    rfl
  · intro h
    have hroot : jsonDictGet (Json.obj kvs) root_field (Json.obj kvs) =
        .ok (Json.obj kvs) := by
      show Except.ok ((alGet kvs root_field).getD (Json.obj kvs)) =
        .ok (Json.obj kvs)
      rw [h]
      rfl
    unfold get_content
    rw [hroot]
    rfl

/-- Witness for the amended C2: a payload with a `data` array unwraps to the
array's items; a payload without a `data` field falls back to iterating the
payload itself (a dict yields its keys). -/
theorem c2_get_content_unwraps_root_witness :
    get_content (Json.obj [("data", Json.arr [Json.num 7])]) "data" =
      .ok [Json.num 7] ∧
    get_content (Json.obj [("other", Json.num 1)]) "data" =
      .ok [Json.str "other"] :=
  ⟨(c2_get_content_unwraps_root [("data", Json.arr [Json.num 7])]
      [Json.num 7] "data").1 rfl,
   (c2_get_content_unwraps_root [("other", Json.num 1)] [] "data").2.1 rfl⟩

/-- **C6** (counterexample): constructing a client with an empty user agent
raises a builtin `TypeError`, which is not a `ClientException`-class error. -/
theorem c6_counterexample_bad_user_agent_not_clientexception :
    checkUserAgent (.str "") =
      .error (.typeError "user agent must be a non-empty string") ∧
    isClientExceptionClass
      (.typeError "user agent must be a non-empty string") = false :=
  ⟨rfl, rfl⟩

/-- **C6** (amended): of the three configuration/programmer errors, only the
direct invocation of the transport session's request method raises a
`ClientException`-class error; a bad (empty or non-string) user agent raises
a builtin `TypeError` and an unknown logical endpoint name raises a builtin
`KeyError`, neither of which is `ClientException`-class. -/
theorem c6_error_classes (key : String) (c : Config) (s : String) (b : Bool)
    (hkey : apiPathLookup key = none) (hs : ¬ s.isEmpty) :
    checkUserAgent (.str "") =
      .error (.typeError "user agent must be a non-empty string") ∧
    checkUserAgent (.otherType b) =
      .error (.typeError "user agent must be a non-empty string") ∧
    checkUserAgent (.str s) = .ok () ∧
    isClientExceptionClass
      (.typeError "user agent must be a non-empty string") = false ∧
    c.getItem key = .error (.keyError key) ∧
    isClientExceptionClass (.keyError key) = false ∧
    _req_error = .error (.clientException "Do not make direct requests.") ∧
    isClientExceptionClass
      (.clientException "Do not make direct requests.") = true := by
  refine ⟨rfl, rfl, ?_, rfl, ?_, rfl, rfl, rfl⟩
  · show (if s.isEmpty then
        Except.error (PyExc.typeError "user agent must be a non-empty string")
      else Except.ok ()) = Except.ok ()
    rw [if_neg hs]
  · unfold Config.getItem
    rw [hkey]

/-- Witness for the amended C6 at the unknown endpoint name `frobnicate`,
the nonempty user agent `my-app` and the concrete configuration. -/
theorem c6_error_classes_witness :
    apiPathLookup "frobnicate" = none ∧
    ¬ ("my-app" : String).isEmpty ∧
    checkUserAgent (.str "my-app") = .ok () ∧
    tpConfig.getItem "frobnicate" = .error (.keyError "frobnicate") ∧
    _req_error = .error (.clientException "Do not make direct requests.") := by
  have h1 : apiPathLookup "frobnicate" = none := rfl
  have h2 : ¬ ("my-app" : String).isEmpty := by decide
  have h := c6_error_classes "frobnicate" tpConfig "my-app" true h1 h2
  exact ⟨h1, h2, h.2.2.1, h.2.2.2.2.1, h.2.2.2.2.2.2.1⟩

theorem splitSchemeSep_https (d : List Char) :
    splitSchemeSep
        ('h' :: 't' :: 't' :: 'p' :: 's' :: ':' :: '/' :: '/' :: d) =
      some (['h', 't', 't', 'p', 's'], d) := rfl

theorem splitSchemeSep_eq_none (cs : List Char) (h : ':' ∉ cs) :
    splitSchemeSep cs = none := by
  induction cs with
  | nil => rfl
  | cons c tl ih =>
    have hc : c ≠ ':' := fun hx => h (hx ▸ List.mem_cons_self c tl)
    have htl : splitSchemeSep tl = none :=
      ih (fun hm => h (List.mem_cons_of_mem c hm))
    unfold splitSchemeSep
    rw [if_neg (fun hx => hc hx.1), htl]
    rfl

theorem takeWhile_no_slash (l : List Char) (h : '/' ∉ l) :
    l.takeWhile (fun c => c ≠ '/') = l := by
  induction l with
  | nil => rfl
  | cons c tl ih =>
    have hc : c ≠ '/' := fun hx => h (hx ▸ List.mem_cons_self c tl)
    have htl := ih (fun hm => h (List.mem_cons_of_mem c hm))
    simp [List.takeWhile_cons, hc, htl]
    exact fun x hx hx' => h (hx' ▸ List.mem_cons_of_mem c hx)

theorem dropWhile_no_slash (l : List Char) (h : '/' ∉ l) :
    l.dropWhile (fun c => c ≠ '/') = [] := by
  induction l with
  | nil => rfl
  | cons c tl ih =>
    have hc : c ≠ '/' := fun hx => h (hx ▸ List.mem_cons_self c tl)
    have htl := ih (fun hm => h (List.mem_cons_of_mem c hm))
    simp [List.dropWhile_cons, hc, htl]
    exact fun x hx hx' => h (hx' ▸ List.mem_cons_of_mem c hx)

theorem urljoin_https_noPathBase (domain rel : String)
    (hd : '/' ∉ domain.data) (hr : splitSchemeSep rel.data = none)
    (hr0 : rel.data.head? ≠ some '/') :
    urljoin ("https://" ++ domain) rel = "https://" ++ domain ++ "/" ++ rel := by
  unfold urljoin
  rw [hr]
  have hbase : ("https://" ++ domain).data =
      'h' :: 't' :: 't' :: 'p' :: 's' :: ':' :: '/' :: '/' :: domain.data :=
    rfl
  rw [hbase, splitSchemeSep_https]
  dsimp only
  rw [takeWhile_no_slash domain.data hd, dropWhile_no_slash domain.data hd,
      if_neg hr0]
  show String.mk (['h', 't', 't', 'p', 's'] ++
      (':' :: '/' :: '/' :: domain.data) ++ ['/'] ++ rel.data) = _
  show _ = String.mk ((("https://".data ++ domain.data) ++ "/".data) ++
      rel.data)
  apply congrArg String.mk
  simp [List.append_assoc]

/-- For every template in `API_PATHS`: no colon (so it never parses as a
scheme) and no leading slash (so it merges onto the base path). -/
theorem apiPaths_templates_wf :
    ∀ kv ∈ API_PATHS, ':' ∉ kv.2.data ∧ kv.2.data.head? ≠ some '/' := by
  decide

/-- **C8**: for every known logical endpoint name, `config[name]` yields the
absolute URL joining the api base URL (`https://` + api domain), the
`v`-prefixed version segment and the name's path template, while
`document_store_url` joins the document-store base URL and the template with
no version segment. -/
theorem c8_endpoint_urls (st : ConfigSettings) (key p : String)
    (hd : '/' ∉ st.api_domain.data) (hdd : '/' ∉ st.document_domain.data)
    (hv : ':' ∉ st.api_version.data)
    (hk : apiPathLookup key = some p) :
    (Config.ofSettings st).getItem key =
      .ok ("https://" ++ st.api_domain ++ "/" ++
        ("v" ++ st.api_version ++ "/" ++ p)) ∧
    (Config.ofSettings st).document_store_url key =
      .ok ("https://" ++ st.document_domain ++ "/" ++ p) := by
  have hmem : (key, p) ∈ API_PATHS := by
    unfold apiPathLookup at hk
    cases hfind : API_PATHS.find? (fun kv => kv.1 = key) with
    | none => rw [hfind] at hk; exact absurd hk (by simp)
    | some kv =>
      rw [hfind] at hk
      have hkv : kv.2 = p := by simpa using hk
      have hkey : kv.1 = key := by
        have := List.find?_some hfind
        simpa using this
      have hmem' := List.mem_of_find?_eq_some hfind
      rw [← hkey, ← hkv]
      exact hmem'
  obtain ⟨hpc, hp0⟩ := apiPaths_templates_wf (key, p) hmem
  constructor
  · unfold Config.getItem
    rw [hk]
    have hrel : splitSchemeSep (("v" ++ st.api_version ++ "/" ++ p)).data =
        none := by
      apply splitSchemeSep_eq_none
      intro hmm
      have : (("v" ++ st.api_version ++ "/" ++ p)).data =
          "v".data ++ st.api_version.data ++ "/".data ++ p.data := by
        simp [List.append_assoc]
      rw [this] at hmm
      simp only [List.mem_append] at hmm
      rcases hmm with ((h1 | h2) | h3) | h4
      · exact absurd h1 (by decide)
      · exact hv h2
      · exact absurd h3 (by decide)
      · exact hpc h4
    have hrel0 : (("v" ++ st.api_version ++ "/" ++ p)).data.head? ≠
        some '/' := by
      show (('v' :: st.api_version.data) ++ "/".data ++ p.data).head? ≠
        some '/'
      intro hx
      have : 'v' = '/' := Option.some.inj (by simpa using hx)
      exact absurd this (by decide)
    show Except.ok (urljoin ("https://" ++ st.api_domain)
        ("v" ++ st.api_version ++ "/" ++ p)) = _
    rw [urljoin_https_noPathBase st.api_domain _ hd hrel hrel0]
  · unfold Config.document_store_url
    rw [hk]
    have hrelp : splitSchemeSep p.data = none := splitSchemeSep_eq_none _ hpc
    show Except.ok (urljoin ("https://" ++ st.document_domain) p) = _
    rw [urljoin_https_noPathBase st.document_domain p hdd hrelp hp0]

/-- Witness for C8 at the concrete `toptranslation` settings and the
endpoint name `show_order`. -/
theorem c8_endpoint_urls_witness :
    apiPathLookup "show_order" = some "orders/{identifier}" ∧
    tpConfig.getItem "show_order" =
      .ok ("https://" ++ "api.toptranslation.com" ++ "/" ++
        ("v" ++ "1" ++ "/" ++ "orders/{identifier}")) ∧
    tpConfig.document_store_url "show_order" =
      .ok ("https://" ++ "document.toptranslation.com" ++ "/" ++
        "orders/{identifier}") := by
  have hk : apiPathLookup "show_order" = some "orders/{identifier}" := rfl
  have h := c8_endpoint_urls
    { api_domain := "api.toptranslation.com"
      api_version := "1"
      document_domain := "document.toptranslation.com"
      api_request_delay := 1
      timeout := 30
      log_requests := 0
      access_token := Option.some "tok" }
    "show_order" "orders/{identifier}" (by decide) (by decide) (by decide) hk
  exact ⟨hk, h.1, h.2⟩

set_option maxHeartbeats 1600000 in
/-- **C9**: the facade methods merge their call-specific fields into the
client's shared default mapping `self.params` itself (Python aliasing:
`params = self.params; params.update(...)`), so after `list_orders` the
fields `page`, `per_page`, `state`, `team_identifier` persist in the client
state's params; a subsequent `show_order` on that state sends them along with
its own `identifier`; and `create_order` likewise merges its body fields
(`name`, ..., including the misspelled `commment`) into the shared mapping
and sends the whole mapping as its POST body. -/
theorem c9_params_shared_mutation (st : ClientState)
    (resp resp' resp'' pg pp sta ti nm : Json) (idf : String) :
    (list_orders st resp pg pp sta ti).map (fun r => r.1.params) =
      .ok (dictUpdate st.params
        [("page", pg), ("per_page", pp), ("state", sta),
         ("team_identifier", ti)]) ∧
    (list_orders st resp pg pp sta ti).map (fun r => r.2.1.params) =
      .ok (dictUpdate st.params
        [("page", pg), ("per_page", pp), ("state", sta),
         ("team_identifier", ti)]) ∧
    alGet (dictUpdate st.params
        [("page", pg), ("per_page", pp), ("state", sta),
         ("team_identifier", ti)]) "page" = some pg ∧
    alGet (dictUpdate st.params
        [("page", pg), ("per_page", pp), ("state", sta),
         ("team_identifier", ti)]) "per_page" = some pp ∧
    alGet (dictUpdate st.params
        [("page", pg), ("per_page", pp), ("state", sta),
         ("team_identifier", ti)]) "state" = some sta ∧
    (show_order { st with params := (dictUpdate st.params
        [("page", pg), ("per_page", pp), ("state", sta),
         ("team_identifier", ti)]) } resp' idf).map (fun r => r.2.1.params) =
      .ok (dictUpdate (dictUpdate st.params
        [("page", pg), ("per_page", pp), ("state", sta),
         ("team_identifier", ti)]) [("identifier", Json.str idf)]) ∧
    alGet (dictUpdate (dictUpdate st.params
        [("page", pg), ("per_page", pp), ("state", sta),
         ("team_identifier", ti)]) [("identifier", Json.str idf)]) "page" =
      some pg ∧
    alGet (dictUpdate (dictUpdate st.params
        [("page", pg), ("per_page", pp), ("state", sta),
         ("team_identifier", ti)]) [("identifier", Json.str idf)])
        "identifier" = some (Json.str idf) ∧
    (create_order st resp'' nm).map (fun r => r.1.params) =
      .ok (dictUpdate st.params
        [("name", nm), ("reference", Json.null), ("commment", Json.null),
         ("coupon_code", Json.null), ("desired_delivery_date", Json.null),
         ("service_level", Json.null),
         ("cost_center_identifier", Json.null)]) ∧
    (create_order st resp'' nm).map (fun r => r.2.1.data) =
      .ok (.dict (dictUpdate st.params
        [("name", nm), ("reference", Json.null), ("commment", Json.null),
         ("coupon_code", Json.null), ("desired_delivery_date", Json.null),
         ("service_level", Json.null),
         ("cost_center_identifier", Json.null)])) ∧
    alGet (dictUpdate st.params
        [("name", nm), ("reference", Json.null), ("commment", Json.null),
         ("coupon_code", Json.null), ("desired_delivery_date", Json.null),
         ("service_level", Json.null),
         ("cost_center_identifier", Json.null)]) "name" = some nm := by
  refine ⟨rfl, rfl, ?_, ?_, ?_, rfl, ?_, ?_, rfl, rfl, ?_⟩
  · show alGet (dictSet (dictSet (dictSet (dictSet st.params "page" pg)
        "per_page" pp) "state" sta) "team_identifier" ti) "page" = some pg
    rw [alGet_dictSet_ne _ _ _ _ (by decide),
        alGet_dictSet_ne _ _ _ _ (by decide),
        alGet_dictSet_ne _ _ _ _ (by decide), alGet_dictSet_same]
  · show alGet (dictSet (dictSet (dictSet (dictSet st.params "page" pg)
        "per_page" pp) "state" sta) "team_identifier" ti) "per_page" = some pp
    rw [alGet_dictSet_ne _ _ _ _ (by decide),
        alGet_dictSet_ne _ _ _ _ (by decide), alGet_dictSet_same]
  · show alGet (dictSet (dictSet (dictSet (dictSet st.params "page" pg)
        "per_page" pp) "state" sta) "team_identifier" ti) "state" = some sta
    rw [alGet_dictSet_ne _ _ _ _ (by decide), alGet_dictSet_same]
  · show alGet (dictSet (dictSet (dictSet (dictSet (dictSet st.params
        "page" pg) "per_page" pp) "state" sta) "team_identifier" ti)
        "identifier" (Json.str idf)) "page" = some pg
    rw [alGet_dictSet_ne _ _ _ _ (by decide),
        alGet_dictSet_ne _ _ _ _ (by decide),
        alGet_dictSet_ne _ _ _ _ (by decide),
        alGet_dictSet_ne _ _ _ _ (by decide), alGet_dictSet_same]
  · show alGet (dictSet (dictSet (dictSet (dictSet (dictSet st.params
        "page" pg) "per_page" pp) "state" sta) "team_identifier" ti)
        "identifier" (Json.str idf)) "identifier" = some (Json.str idf)
    rw [alGet_dictSet_same]
  · show alGet (dictSet (dictSet (dictSet (dictSet (dictSet (dictSet
        (dictSet st.params "name" nm) "reference" Json.null)
        "commment" Json.null) "coupon_code" Json.null)
        "desired_delivery_date" Json.null) "service_level" Json.null)
        "cost_center_identifier" Json.null) "name" = some nm
    rw [alGet_dictSet_ne _ _ _ _ (by decide),
        alGet_dictSet_ne _ _ _ _ (by decide),
        alGet_dictSet_ne _ _ _ _ (by decide),
        alGet_dictSet_ne _ _ _ _ (by decide),
        alGet_dictSet_ne _ _ _ _ (by decide),
        alGet_dictSet_ne _ _ _ _ (by decide), alGet_dictSet_same]
